import Mathlib

/-!
# Shallow embedding of the `ai_news_engine` aggregation pipeline

This file embeds the parts of the repository that the verified claims talk
about:

* `src/tools/reddit_search.py` — window generation, the listing walk with its
  early `break`, and the sorted merge of per-subreddit results;
* `src/tools/techcrunch_search.py` — article parsing, the relative-age parser
  (`_convert_to_days_ago` / `_convert_to_date`) and the date filter;
* `src/tools/mediumcom_search.py` — article parsing, the relative-age parser
  (`extract_post_age` / `convert_to_days_ago` / `extract_post_date`), the
  scroll loop of `fetch_articles`, its duplicate removal, and the pairing of
  the web-driver acquisition with `quit()`;
* `src/tools/youtube_search.py` — `process_video` with its secondary lookups
  and `remove_duplicates`;
* `src/main.py` — `filename_generator` and `generate_markdown`.

Modelling conventions:

* Calendar dates are embedded as day numbers (`Int`).  The Python code stores
  dates as ISO `YYYY-MM-DD` strings produced by `strftime` and compares them
  with string comparison; for such strings lexicographic order agrees with
  chronological order, so `Int` comparison of day numbers is the same test.
  `datetime.now().date()` becomes an explicit `today : Int` parameter and
  `timedelta(days=n)` becomes subtraction.
* External effects (the Reddit listing, rendered page sources, the language
  detector, transcript and description lookups) are passed in as data or as
  fallible oracles (`Except String _`), matching the raw values the Python
  code receives from its collaborators.
* Python exceptions are embedded as `Except.error`; a value the code computes
  without raising is `Except.ok`.
-/

namespace AINews

/-! ## Python string primitives

The scrapers use `str.lower`, substring containment (`"x" in s`), `str.strip`,
`int(...)` on digit runs, and three regular expressions.  These are embedded
over `List Char` / `String` below.
-/

/-- Python `pat in s` on character lists: `pat` occurs contiguously in `s`. -/
def listInfix (pat : List Char) : List Char → Bool
  | [] => pat.isEmpty
  | c :: rest => pat.isPrefixOf (c :: rest) || listInfix pat rest

/-- Python `pat in s` for strings. -/
def strContains (s pat : String) : Bool := listInfix pat.toList s.toList

/-- Python `s.lower()` (the scraped text is ASCII). -/
def strLower (s : String) : String := ⟨s.toList.map Char.toLower⟩

/-- Python `s.strip()`. -/
def strStrip (s : String) : String :=
  ⟨((s.toList.dropWhile Char.isWhitespace).reverse.dropWhile Char.isWhitespace).reverse⟩

/-- Python `int(ds)` for a run of decimal digits `ds`. -/
def digitsToNat (l : List Char) : Nat :=
  l.foldl (fun n c => 10 * n + (c.toNat - 48)) 0

/-- `re.search(r'\d+', s)`: the first maximal run of decimal digits in `s`
(Python then applies `int` to it). -/
def firstIntRun : List Char → Option (List Char)
  | [] => none
  | c :: rest =>
    if c.isDigit then some (c :: rest.takeWhile Char.isDigit) else firstIntRun rest

/-- A word character for the regex `\b` boundary (`[A-Za-z0-9_]`). -/
def isWordChar (c : Char) : Bool := c.isAlphanum || c == '_'

/-- Does `\d{1,2}[hd] ago` match at the head of `s` using two digits? -/
def tryAge2 : List Char → Bool
  | d1 :: d2 :: u :: rest =>
    d1.isDigit && d2.isDigit && (u == 'h' || u == 'd') && " ago".toList.isPrefixOf rest
  | _ => false

/-- Does `\d{1,2}[hd] ago` match at the head of `s` using one digit? -/
def tryAge1 : List Char → Bool
  | d1 :: u :: rest =>
    d1.isDigit && (u == 'h' || u == 'd') && " ago".toList.isPrefixOf rest
  | _ => false

/-- `re.findall(r'\b\d{1,2}[hd] ago', s)`: scan left to right; at a position
preceded by a word boundary try the greedy two-digit form first, then the
one-digit form; matches do not overlap, so after a match the scan skips the
matched characters (`skip` counts the characters still to skip; every skipped
position leaves the boundary flag `false`, which is correct at the position
right after a match because a match ends in the word character `o`). -/
def findAgesAux : List Char → Bool → Nat → List (List Char)
  | [], _, _ => []
  | _ :: rest, _, skip + 1 => findAgesAux rest false skip
  | c :: rest, boundary, 0 =>
    if boundary && tryAge2 (c :: rest) then
      (c :: rest).take 7 :: findAgesAux rest false 6
    else if boundary && tryAge1 (c :: rest) then
      (c :: rest).take 6 :: findAgesAux rest false 5
    else
      findAgesAux rest (!isWordChar c) 0

/-- `re.findall(r'\b\d{1,2}[hd] ago', s)` (start of string is a boundary). -/
def findAges (s : String) : List String :=
  (findAgesAux s.toList true 0).map List.asString

/-- `re.search(r'(\d+)d ago', s)`, returning the digit group of the first
match.  At each start position the greedy `\d+` takes the maximal digit run;
backtracking inside the run cannot help because the character after a shorter
run is a digit, not `d`, so only the maximal run is tried. -/
def searchDAgo : List Char → Option (List Char)
  | [] => none
  | c :: rest =>
    if c.isDigit && "d ago".toList.isPrefixOf (rest.dropWhile Char.isDigit) then
      some (c :: rest.takeWhile Char.isDigit)
    else searchDAgo rest

/-! ## Medium relative-age parsing (`src/tools/mediumcom_search.py`, `ArticleParser`) -/

namespace Medium

/-- `ArticleParser.convert_to_days_ago`: the exact string `"just now"` and any
string containing `"h ago"` collapse to `"0d ago"`; anything else is merely
lowercased. -/
def convert_to_days_ago (input_str : String) : String :=
  if strLower input_str == "just now" then "0d ago"
  else if strContains (strLower input_str) "h ago" then "0d ago"
  else strLower input_str

/-- `ArticleParser.extract_post_age`: find every `\b\d{1,2}[hd] ago` substring
and normalise each through `convert_to_days_ago`. -/
def extract_post_age (input_str : String) : List String :=
  (findAges input_str).map convert_to_days_ago

/-- `ArticleParser.convert_to_date`: `datetime.now() - timedelta(days=days)`,
rendered at day resolution. -/
def convert_to_date (today : Int) (days : Nat) : Int := today - days

/-- The raw material of one Medium `<article>` block, as BeautifulSoup hands
it to `ArticleParser`: the stripped text of each `<h2>`, the `aria-label` and
`data-href` attributes of each `<div>` (absent attributes are `none`), the
`src` of each `<img>`, the stripped text of each `<h3>`, and the stripped text
of each `<div>`. -/
structure MediumArticleHtml where
  h2_texts : List String
  div_aria_labels : List (Option String)
  div_data_hrefs : List (Option String)
  img_srcs : List String
  h3_texts : List String
  div_texts : List String

/-- `ArticleParser.extract_post_date`: pass every non-empty `<div>` text
through `convert_to_days_ago`, collect the normalised age substrings of each,
take the first, and map its `(\d+)d ago` day count to an absolute date.  No
age found (or an empty first age) yields `none`. -/
def extract_post_date (today : Int) (a : MediumArticleHtml) : Option Int :=
  let div_texts := (a.div_texts.filter (fun t => t ≠ "")).map convert_to_days_ago
  let ages := (div_texts.flatMap (fun t => (extract_post_age t).filter (fun g => g ≠ ""))).map
    convert_to_days_ago
  match ages.head? with
  | none => none
  | some age =>
    if age ≠ "" then
      match searchDAgo age.toList with
      | some run => some (convert_to_date today (digitsToNat run))
      | none => none
    else none

end Medium

/-! ## TechCrunch parsing (`src/tools/techcrunch_search.py`) -/

namespace TechCrunch

/-- `ArticleParser._convert_to_days_ago` (TechCrunch): a string containing
`"hour"` means today; a string containing `"days ago"` yields its first
integer; anything else yields `none`. -/
def tc_convert_to_days_ago (input_str : String) : Option Nat :=
  if strContains (strLower input_str) "hour" then some 0
  else if strContains (strLower input_str) "days ago" then
    (firstIntRun input_str.toList).map digitsToNat
  else none

/-- `ArticleParser._convert_to_date` (TechCrunch). -/
def tc_convert_to_date (today : Int) : Option Nat → Option Int
  | none => none
  | some days => some (today - days)

/-- One TechCrunch article block (`div.wp-block-tc23-post-picker`):
`title_tag` is the `<a>` inside the `h2.wp-block-post-title` when that heading
exists (its text and its `href`); `author_href` is the `href` of the `<a>`
inside `div.wp-block-tc23-author-card-name` when that div exists; `summary` is
the text of `p.wp-block-post-excerpt__excerpt` when present; `time_text` is
the text of `time.wp-block-tc23-post-time-ago` when present. -/
structure TCArticleHtml where
  title_tag : Option (String × String)
  author_href : Option String
  summary : Option String
  time_text : Option String

/-- The TechCrunch `Article` dataclass. -/
structure Article where
  title : String
  link : Option String
  author : Option String
  snippet : String
  date : Option Int
  deriving DecidableEq, Repr

/-- The group of `re.search(r'/author/(.+?)/', link)`: scan for the first
`/author/` occurrence followed by at least one character and a later `/`; the
lazy group is the shortest non-empty run ending at that `/`. -/
def tc_author_group : List Char → Option (List Char)
  | [] => none
  | c :: rest =>
    if "/author/".toList.isPrefixOf (c :: rest) then
      match (c :: rest).drop 8 with
      | [] => none
      | d :: ds =>
        if ds.dropWhile (fun x => x ≠ '/') = [] then none
        else some (d :: ds.takeWhile (fun x => x ≠ '/'))
    else tc_author_group rest

/-- `ArticleParser._extract_author`: match `/author/(.+?)/` in the author
link and replace dashes with spaces; no match yields `"Unknown author"`. -/
def tc_extract_author (author_link : String) : String :=
  match tc_author_group author_link.toList with
  | some g => ⟨g.map (fun c => if c == '-' then ' ' else c)⟩
  | none => "Unknown author"

/-- `ArticleParser._extract_date` (TechCrunch): strip the `<time>` text and
run it through the two conversion steps; a missing tag yields `none`. -/
def tc_extract_date (today : Int) (h : TCArticleHtml) : Option Int :=
  match h.time_text with
  | none => none
  | some t => tc_convert_to_date today (tc_convert_to_days_ago (strStrip t))

/-- `ArticleParser.parse_article` (TechCrunch): a missing title heading makes
the title the literal `"Title not found"` and the link `None`; a missing
excerpt makes the snippet `"Summary not found"`.  Nothing is dropped here. -/
def parse_article (today : Int) (h : TCArticleHtml) : Article :=
  { title := match h.title_tag with
      | some t => t.1
      | none => "Title not found"
    link := h.title_tag.map Prod.snd
    author := h.author_href.map tc_extract_author
    snippet := match h.summary with
      | some s => strStrip s
      | none => "Summary not found"
    date := tc_extract_date today h }

/-- `TechCrunchNews._filter_articles`: keep articles whose date is present
(truthy) and at least `today - days_back`; the link and title are not
inspected. -/
def tc_filter_articles (today : Int) (days_back : Int) (articles : List Article) :
    List Article :=
  articles.filter (fun a =>
    match a.date with
    | some d => d ≥ today - days_back
    | none => false)

/-- `TechCrunchNews.get_articles` on an already-fetched page: parse every
article block, then filter by date. -/
def get_articles (today : Int) (days_back : Int) (page : List TCArticleHtml) :
    List Article :=
  tc_filter_articles today days_back (page.map (parse_article today))

end TechCrunch

/-! ## Medium adapter (`src/tools/mediumcom_search.py`) -/

namespace Medium

/-- Hexadecimal digit test for the pattern `[0-9a-fA-F]`. -/
def isHex (c : Char) : Bool :=
  c.isDigit || ('a' ≤ c && c ≤ 'f') || ('A' ≤ c && c ≤ 'F')

/-- Value of a hexadecimal digit. -/
def hexVal (c : Char) : Nat :=
  if c.isDigit then c.toNat - 48
  else if 'a' ≤ c then c.toNat - 87
  else c.toNat - 55

/-- `re.sub(r'\\u([0-9a-fA-F]{4})', chr∘int, text)`: left-to-right scan
replacing each escape by its code point.  (Python `chr` also accepts
surrogate code points, which are not valid Lean `Char`s; no scraped input in
the claims contains one.) -/
def convUnicode : List Char → List Char
  | [] => []
  | '\\' :: 'u' :: a :: b :: c :: d :: rest =>
    if isHex a && isHex b && isHex c && isHex d then
      Char.ofNat (4096 * hexVal a + 256 * hexVal b + 16 * hexVal c + hexVal d) ::
        convUnicode rest
    else '\\' :: convUnicode ('u' :: a :: b :: c :: d :: rest)
  | c :: rest => c :: convUnicode rest

/-- `ArticleParser.convert_unicode_escapes` on a string (on `None` the Python
function is the identity; callers map over the option). -/
def convert_unicode_escapes (s : String) : String := ⟨convUnicode s.toList⟩

/-- `ArticleParser.extract_title`: `aria-label` values that are non-empty
strings, then non-empty `<h2>` texts; the first candidate wins and is passed
through `convert_unicode_escapes`. -/
def extract_title (a : MediumArticleHtml) : Option String :=
  let h2_texts := a.h2_texts.filter (fun x => x.length > 0)
  let titles := ((a.div_aria_labels.filterMap id).filter (fun x => x.length > 0)) ++ h2_texts
  titles.head?.map convert_unicode_escapes

/-- `ArticleParser.extract_links`: truthy `data-href` attributes containing
`"https"`; the first wins. -/
def extract_links (a : MediumArticleHtml) : Option String :=
  let data_href := (a.div_data_hrefs.filterMap id).filter (fun x => x ≠ "")
  (data_href.filter (fun x => x.length > 0 && strContains x "https")).head?

/-- `ArticleParser.extract_image`: deduplicate the `src` values (CPython uses
`list(set(...))`, whose order is unspecified; the embedding keeps first
occurrences — no claim depends on which image is chosen), keep those whose
lowercase form contains `.jpg`, `.png` or `.jpeg`, and take the first. -/
def extract_image (a : MediumArticleHtml) : Option String :=
  let srcs := a.img_srcs.eraseDups
  (srcs.filter (fun i =>
    strContains (strLower i) ".jpg" || strContains (strLower i) ".png" ||
      strContains (strLower i) ".jpeg")).head?

/-- `ArticleParser.extract_snippet`: first non-empty `<h3>` text, unicode
escapes decoded. -/
def extract_snippet (a : MediumArticleHtml) : Option String :=
  ((a.h3_texts.filter (fun x => x.length > 0)).head?).map convert_unicode_escapes

/-- The `MediumArticle` dataclass. -/
structure MediumArticle where
  title : String
  link : String
  img : Option String
  snippet : String
  date : Option Int
  topic : String
  deriving DecidableEq

/-- `ArticleParser.parse_article` (Medium): extract every field; the record
survives only when title, link and snippet are all truthy (present and
non-empty). -/
def parse_article (today : Int) (a : MediumArticleHtml) (topic : String) :
    Option MediumArticle :=
  match extract_title a, extract_links a, extract_snippet a with
  | some title, some link, some snippet =>
    if title ≠ "" && link ≠ "" && snippet ≠ "" then
      some ⟨title, link, extract_image a, snippet, extract_post_date today a, topic⟩
    else none
  | _, _, _ => none

/-- `MediumNewsFetcher.is_valid_article`: an article with no date is invalid;
otherwise it must be on or after `today - days_back` and its title must be
classified `"en"`.  The `langdetect.detect` call is an external classifier
that can raise (`LangDetectException`), so it is passed in as a fallible
oracle; Python's `and` short-circuits, so it only runs when the date test
passes. -/
def is_valid_article (detect : String → Except String String) (today days_back : Int)
    (a : MediumArticle) : Except String Bool :=
  match a.date with
  | none => .ok false
  | some d =>
    if d ≥ today - days_back then do
      let lang ← detect a.title
      pure (lang == "en")
    else pure false

/-- The per-article loop of `MediumNewsFetcher.process_current_page`: parse
each block; a parsed article that is valid and whose link is unseen is
appended and its link recorded.  Returns the new articles and the grown seen
set; an exception from the language detector propagates. -/
def process_articles (detect : String → Except String String) (today days_back : Int)
    (topic : String) :
    List MediumArticleHtml → List String → Except String (List MediumArticle × List String)
  | [], seen => .ok ([], seen)
  | a :: rest, seen =>
    match parse_article today a topic with
    | none => process_articles detect today days_back topic rest seen
    | some art =>
      match is_valid_article detect today days_back art with
      | .error e => .error e
      | .ok valid =>
        if valid ∧ art.link ∉ seen then
          match process_articles detect today days_back topic rest (seen ++ [art.link]) with
          | .error e => .error e
          | .ok (more, seen2) => .ok (art :: more, seen2)
        else process_articles detect today days_back topic rest seen

/-- `MediumNewsFetcher.remove_duplicate_articles`, inner loop: keep an
article when its link is truthy and unseen, recording the link. -/
def remove_duplicates_go : List MediumArticle → List String → List MediumArticle
  | [], _ => []
  | a :: rest, seen =>
    if a.link ≠ "" ∧ a.link ∉ seen then
      a :: remove_duplicates_go rest (seen ++ [a.link])
    else remove_duplicates_go rest seen

/-- `MediumNewsFetcher.remove_duplicate_articles`. -/
def remove_duplicate_articles (articles : List MediumArticle) : List MediumArticle :=
  remove_duplicates_go articles []

/-- The scroll loop of `MediumNewsFetcher.fetch_articles` for one topic: the
successive page sources the driver returns are passed as `pages`; each
iteration processes the current page and scrolls, and the loop stops after 3
consecutive iterations with no new article.  When the supplied snapshots run
out, every further page source yields no new article, so the loop finishes
with the accumulator unchanged. -/
def scroll_loop (detect : String → Except String String) (today days_back : Int)
    (topic : String) :
    List (List MediumArticleHtml) → Nat → List String → List MediumArticle →
      Except String (List MediumArticle)
  | pages, consecutive, seen, acc =>
    if 3 ≤ consecutive then .ok acc
    else
      match pages with
      | [] => .ok acc
      | page :: rest =>
        match process_articles detect today days_back topic page seen with
        | .error e => .error e
        | .ok (new, seen2) =>
          if new.isEmpty then
            scroll_loop detect today days_back topic rest (consecutive + 1) seen2 acc
          else scroll_loop detect today days_back topic rest 0 seen2 (acc ++ new)

/-- The topic loop of `MediumNewsFetcher.fetch_articles`: the seen-link set
restarts per topic, while `all_articles` accumulates across topics. -/
def fetch_topics (detect : String → Except String String) (today days_back : Int) :
    List (String × List (List MediumArticleHtml)) → List MediumArticle →
      Except String (List MediumArticle)
  | [], acc => .ok acc
  | (topic, pages) :: rest, acc =>
    match scroll_loop detect today days_back topic pages 0 [] acc with
    | .error e => .error e
    | .ok acc2 => fetch_topics detect today days_back rest acc2

/-- `MediumNewsFetcher.fetch_articles`: run the topic loop, then
`self.driver_manager.quit()`, then return the deduplicated articles.  The
`quit()` call is not protected by `try`/`finally`: an exception raised inside
the loop propagates out of `fetch_articles` and the driver is never quit.
The boolean records whether `quit()` ran. -/
def fetch_articles (detect : String → Except String String) (today days_back : Int)
    (topics : List (String × List (List MediumArticleHtml))) :
    Except String (List MediumArticle) × Bool :=
  match fetch_topics detect today days_back topics [] with
  | .error e => (.error e, false)
  | .ok arts => (.ok (remove_duplicate_articles arts), true)

end Medium

/-! ## Reddit adapter (`src/tools/reddit_search.py`) -/

namespace Reddit

/-- One submission as PRAW yields it to `RedditAPIClient.fetch_posts`:
`created_date` is the calendar day of
`datetime.fromtimestamp(post.created_utc)`; `author` is `none` for a deleted
account. -/
structure PrawSubmission where
  title : String
  permalink : String
  author : Option String
  score : Int
  created_date : Int
  selftext : String
  num_comments : Int
  is_self : Bool
  deriving DecidableEq

/-- The `RedditPost` dataclass (the per-post dict has the same fields). -/
structure RedditPost where
  title : String
  link : String
  author : String
  score : Int
  date : Int
  content : String
  num_comments : Int
  subreddit : String
  is_self : Bool
  deriving DecidableEq

/-- Python `min` on a list; raises `ValueError` on an empty list. -/
def pymin : List Int → Except String Int
  | [] => .error "ValueError: min() arg is an empty sequence"
  | x :: xs => .ok (xs.foldl min x)

/-- The dict `RedditAPIClient.fetch_posts` appends for an in-window post. -/
def build_record (subreddit_name : String) (p : PrawSubmission) : RedditPost :=
  let link := "https://www.reddit.com" ++ p.permalink
  { title := p.title
    link := link
    author := match p.author with
      | some a => a
      | none => "[deleted]"
    score := p.score
    date := p.created_date
    content := if p.is_self then p.selftext else link
    num_comments := p.num_comments
    subreddit := subreddit_name
    is_self := p.is_self }

/-- `RedditAPIClient.fetch_posts`: walk the listing in order; an in-window
post is kept; otherwise, if the post is strictly older than `min(time_window)`
the loop breaks (on an empty window `min` raises `ValueError`); otherwise the
post is skipped. -/
def api_fetch_posts (subreddit_name : String) (tw : List Int) :
    List PrawSubmission → Except String (List RedditPost)
  | [] => .ok []
  | p :: rest =>
    if tw.contains p.created_date then
      match api_fetch_posts subreddit_name tw rest with
      | .error e => .error e
      | .ok posts => .ok (build_record subreddit_name p :: posts)
    else
      match pymin tw with
      | .error e => .error e
      | .ok m =>
        if p.created_date < m then .ok []
        else api_fetch_posts subreddit_name tw rest

/-- `RedditNewsFetcher.generate_time_window`: the `days_back` day strings
`today - x` for `x` in `range(days_back)`. -/
def generate_time_window (today : Int) (days_back : Nat) : List Int :=
  (List.range days_back).map (fun x => today - x)

/-- `PostProcessor.process_post`: copy the dict fields into the dataclass. -/
def process_post (p : RedditPost) : RedditPost :=
  { title := p.title
    link := p.link
    author := p.author
    score := p.score
    date := p.date
    content := p.content
    num_comments := p.num_comments
    subreddit := p.subreddit
    is_self := p.is_self }

/-- The subreddit loop of `RedditNewsFetcher.fetch_posts`: fetch each
subreddit's listing (`listings` supplies what `subreddit.new` returns) and
concatenate the processed posts. -/
def fetch_all (listings : String → List PrawSubmission) (tw : List Int) :
    List String → Except String (List RedditPost)
  | [] => .ok []
  | s :: rest =>
    match api_fetch_posts s tw (listings s) with
    | .error e => .error e
    | .ok raw =>
      match fetch_all listings tw rest with
      | .error e => .error e
      | .ok tail => .ok (raw.map process_post ++ tail)

/-- `RedditNewsFetcher.fetch_posts`: gather all subreddits, then
`sorted(all_posts, key=lambda x: x.date, reverse=True)`.  Python's `sorted`
is a stable sort; for a total preorder key every stable sort computes the
same list, and `List.insertionSort` is stable, so it embeds `sorted` with the
descending-date comparison. -/
def fetch_posts (subreddits : List String) (listings : String → List PrawSubmission)
    (today : Int) (days_back : Nat) : Except String (List RedditPost) :=
  match fetch_all listings (generate_time_window today days_back) subreddits with
  | .error e => .error e
  | .ok all => .ok (List.insertionSort (fun a b => b.date ≤ a.date) all)

end Reddit

/-! ## YouTube adapter (`src/tools/youtube_search.py`) -/

namespace YouTube

/-- One search-result item as the YouTube API returns it (`id.videoId` plus
the `snippet` fields `process_video` reads).  `publishedAt` is an ISO-8601
instant in the source; such strings compare lexicographically exactly as the
instants compare chronologically, so it is embedded as an instant number. -/
structure VideoItem where
  videoId : String
  title : String
  publishedAt : Int
  channelTitle : String
  deriving DecidableEq

/-- The `Video` dataclass (`published_at`/`date` are ISO instants, embedded
as instant numbers, see `VideoItem`). -/
structure Video where
  title : String
  video_id : String
  published_at : Int
  topic : String
  link : String
  channel : String
  date : Int
  description : String
  transcript : String
  deriving DecidableEq

/-- One transcript segment (`segment["text"]`). -/
structure TranscriptSegment where
  text : String
  deriving DecidableEq

/-- `VideoProcessor.process_raw_transcript`. -/
def process_raw_transcript (raw : List TranscriptSegment) : String :=
  raw.foldl (fun acc seg => acc ++ " " ++ seg.text) ""

/-- `VideoProcessor.process_video`: the transcript lookup
(`YouTubeTranscriptApi.get_transcript`) is wrapped in a bare `except` that
leaves the transcript empty on failure; the description lookup
(`YouTube(link).description` via pytube) is not guarded, so its exception
propagates and no `Video` is returned.  Both external lookups are passed in
as fallible oracles. -/
def process_video (item : VideoItem) (query : String)
    (transcript_lookup : Except String (List TranscriptSegment))
    (description_lookup : Except String String) : Except String Video :=
  let link := "https://www.youtube.com/watch?v=" ++ item.videoId
  let transcript := match transcript_lookup with
    | .ok raw => process_raw_transcript raw
    | .error _ => ""
  match description_lookup with
  | .error e => .error e
  | .ok description =>
    .ok { title := item.title
          video_id := item.videoId
          published_at := item.publishedAt
          topic := query
          link := link
          channel := item.channelTitle
          date := item.publishedAt
          description := description
          transcript := transcript }

/-- Insertion into a Python dict comprehension: an existing key keeps its
position but takes the new value; a new key is appended. -/
def dict_insert (l : List (String × Video)) (k : String) (v : Video) :
    List (String × Video) :=
  if l.any (fun p => p.1 == k) then l.map (fun p => if p.1 == k then (k, v) else p)
  else l ++ [(k, v)]

/-- `{v.video_id: v for v in videos}` as an insertion-ordered association
list (CPython dicts preserve first-insertion key order and keep the last
value per key). -/
def py_dict (entries : List (String × Video)) : List (String × Video) :=
  entries.foldl (fun d e => dict_insert d e.1 e.2) []

/-- `YouTubeNewsFetcher.remove_duplicates`: dict-comprehension values (last
occurrence per `video_id`), then `sorted(..., key=lambda x: x.published_at,
reverse=True)` (stable, embedded as `List.insertionSort`). -/
def remove_duplicates (videos : List Video) : List Video :=
  let unique := (py_dict (videos.map (fun v => (v.video_id, v)))).map Prod.snd
  List.insertionSort (fun a b => b.published_at ≤ a.published_at) unique

end YouTube

/-! ## Orchestrator (`src/main.py`) -/

namespace Main

/-- Decimal digit characters of `n`, most significant first; `fuel` bounds
the recursion depth (any `fuel` with `n < 10 ^ fuel` is enough). -/
def decChars : Nat → Nat → List Char
  | 0, _ => []
  | fuel + 1, n =>
    if n < 10 then [Nat.digitChar n]
    else decChars fuel (n / 10) ++ [Nat.digitChar (n % 10)]

/-- The decimal rendering of `n` (Python `str(n)` / `repr`). -/
def natToDec (n : Nat) : String := ⟨decChars (n + 1) n⟩

/-- Python `f"{n:02d}"`: decimal, zero-padded to a minimum width of two. -/
def format02 (n : Nat) : String :=
  if n < 10 then "0" ++ natToDec n else natToDec n

/-- The candidate paths `filename_generator` probes, in order: first
`os.path.join(dst_dir, f"AI_News_Summary_{today}.md")`, then for `ix ≥ 1` the
suffixed `f"AI_News_Summary_{today}_{ix:02d}.md"`. -/
def candidate (dst_dir today : String) : Nat → String
  | 0 => dst_dir ++ "/AI_News_Summary_" ++ today ++ ".md"
  | ix + 1 => dst_dir ++ "/AI_News_Summary_" ++ today ++ "_" ++ format02 (ix + 1) ++ ".md"

/-- The `while os.path.exists(path_to_fname)` loop of `filename_generator`:
`files` is the set of paths that exist on disk (a finite list); `fuel` bounds
the iterations (the loop terminates because only finitely many files exist
and candidate names never repeat). -/
def filename_from (files : List String) (dst_dir today : String) :
    Nat → Nat → String
  | 0, ix => candidate dst_dir today ix
  | fuel + 1, ix =>
    if candidate dst_dir today ix ∈ files then
      filename_from files dst_dir today fuel (ix + 1)
    else candidate dst_dir today ix

/-- `filename_generator`: today's base name, with an increasing `_NN` suffix
while the candidate already exists.  `files.length + 1` probes always reach a
free name (proved below), so the fuel never runs out. -/
def filename_generator (files : List String) (dst_dir today : String) : String :=
  filename_from files dst_dir today (files.length + 1) 0

/-- Python `f"{x}"` for an optional string: `None` renders as `"None"`. -/
def pyOptStr : Option String → String
  | some s => s
  | none => "None"

/-- Python `f"{x}"` for an optional date: the embedded day number is rendered
with `toString` (standing in for the ISO date string); `None` renders as
`"None"`. -/
def pyOptDate : Option Int → String
  | some d => toString d
  | none => "None"

/-- The TechCrunch section of `generate_markdown`. -/
def tc_section (articles : List TechCrunch.Article) : String :=
  "\n## TechCrunch Articles\n" ++ String.join (articles.map (fun a =>
    "- [" ++ a.title ++ "](" ++ pyOptStr a.link ++ ")\n" ++
    "  - Author: " ++ pyOptStr a.author ++ "\n" ++
    "  - Date: " ++ pyOptDate a.date ++ "\n" ++
    "  - Excerpt: " ++ a.snippet ++ "\n\n"))

/-- The YouTube section of `generate_markdown`. -/
def yt_section (videos : List YouTube.Video) : String :=
  "\n## YouTube Videos\n" ++ String.join (videos.map (fun v =>
    "- [" ++ v.title ++ "](" ++ v.link ++ ")\n" ++
    "  - Channel: " ++ v.channel ++ "\n" ++
    "  - Topic: " ++ v.topic ++ "\n" ++
    "  - Published: " ++ toString v.published_at ++ "\n\n"))

/-- `generate_markdown` reads `post.url`, but the `RedditPost` dataclass
defines `link` and no `url` field: the attribute access raises
`AttributeError` (main.py line 137). -/
def redditPost_url (_p : Reddit.RedditPost) : Except String String :=
  .error "AttributeError: 'RedditPost' object has no attribute 'url'"

/-- The per-post bullets of the Reddit section; the first `post.url` access
raises, so a non-empty list yields an error. -/
def reddit_items : List Reddit.RedditPost → Except String String
  | [] => .ok ""
  | p :: rest =>
    match redditPost_url p with
    | .error e => .error e
    | .ok u =>
      match reddit_items rest with
      | .error e => .error e
      | .ok tail =>
        .ok ("- [" ++ p.title ++ "](" ++ u ++ ")\n" ++
          "  - Subreddit: r/" ++ p.subreddit ++ "\n" ++
          "  - Author: u/" ++ p.author ++ "\n" ++
          "  - Score: " ++ toString p.score ++ "\n" ++
          "  - Comments: " ++ toString p.num_comments ++ "\n" ++
          "  - Date: " ++ toString p.date ++ "\n\n" ++ tail)

/-- The Reddit section of `generate_markdown`. -/
def reddit_section (posts : List Reddit.RedditPost) : Except String String :=
  match reddit_items posts with
  | .error e => .error e
  | .ok body => .ok ("\n## Reddit Posts\n" ++ body)

/-- The Medium section of `generate_markdown`. -/
def medium_section (posts : List Medium.MediumArticle) : String :=
  "\n## Medium.com Posts\n" ++ String.join (posts.map (fun p =>
    "- [" ++ p.title ++ "](" ++ p.link ++ ")\n" ++
    "  - Topic: " ++ p.topic ++ "\n" ++
    "  - Date: " ++ pyOptDate p.date ++ "\n" ++
    "  - Excerpt: " ++ p.snippet ++ "\n\n" ++
    (match p.img with
     | some i => "  ![Article Image](" ++ i ++ ")\n\n"
     | none => "")))

/-- `main.py` binds the name `today` only inside `filename_generator`'s local
scope; neither `generate_markdown` nor the module toplevel defines `today`,
so the f-string `f"# AI News Summary - {today}"` (main.py line 119) looks the
name up and fails. -/
def today_in_scope : Option String := none

/-- `generate_markdown`, as the document text it writes (file I/O elided):
the header f-string is evaluated first and raises `NameError` because
`today` is unbound; were it bound, a non-empty Reddit list would still raise
`AttributeError` at `post.url`. -/
def generate_markdown (techcrunch_articles : List TechCrunch.Article)
    (youtube_videos : List YouTube.Video) (reddit_posts : List Reddit.RedditPost)
    (medium_posts : List Medium.MediumArticle) : Except String String :=
  match today_in_scope with
  | none => .error "NameError: name 'today' is not defined"
  | some today =>
    match reddit_section reddit_posts with
    | .error e => .error e
    | .ok rsec =>
      .ok ("# AI News Summary - " ++ today ++ "\n\n" ++
        tc_section techcrunch_articles ++ yt_section youtube_videos ++ rsec ++
        medium_section medium_posts)

end Main

/-! ## Concrete probe inputs used by the claim theorems -/

/-- A language oracle that classifies every title as English (the successful
behaviour of `langdetect.detect`). -/
def enDetect : String → Except String String := fun _ => .ok "en"

/-- A language oracle that raises, as `langdetect.detect` does on a title
with no alphabetic features (`LangDetectException`). -/
def boomDetect : String → Except String String :=
  fun _ => .error "LangDetectException: No features in text."

/-- A Medium article block whose only date-bearing text is the given div
texts. -/
def mediumDivs (ts : List String) : Medium.MediumArticleHtml := ⟨[], [], [], [], [], ts⟩

/-- A TechCrunch article with the given date (probe for the date filter). -/
def tcDatedArticle (d : Int) : TechCrunch.Article :=
  ⟨"probe title", some "https://techcrunch.com/x", none, "probe snippet", some d⟩

/-- A Medium article with the given date (probe for `is_valid_article`). -/
def mDatedArticle (d : Int) : Medium.MediumArticle :=
  ⟨"hello", "https://medium.com/x", none, "probe snippet", some d, "llm"⟩

/-- A Medium article block that parses to a complete article dated two days
back. -/
def mhHello : Medium.MediumArticleHtml :=
  ⟨["Hello"], [], [some "https://medium.com/p/a"], [], ["Snip"], ["2d ago"]⟩

/-- The article `mhHello` parses to when `today = 10`. -/
def mExpected : Medium.MediumArticle :=
  ⟨"Hello", "https://medium.com/p/a", none, "Snip", some 8, "llm"⟩

/-- Medium articles `A(link=1)`, `B(link=2)`, `C(link=1)` from the claimed
dedupe example. -/
def medA : Medium.MediumArticle := ⟨"A", "1", none, "s", none, "t"⟩

/-- See `medA`. -/
def medB : Medium.MediumArticle := ⟨"B", "2", none, "s", none, "t"⟩

/-- See `medA`. -/
def medC : Medium.MediumArticle := ⟨"C", "1", none, "s", none, "t"⟩

/-- Videos `A(video_id=1)`, `B(video_id=2)`, `C(video_id=1)` with increasing
publication instants. -/
def vidA : YouTube.Video := ⟨"A", "1", 1, "t", "l1", "c", 1, "", ""⟩

/-- See `vidA`. -/
def vidB : YouTube.Video := ⟨"B", "2", 2, "t", "l2", "c", 2, "", ""⟩

/-- See `vidA`. -/
def vidC : YouTube.Video := ⟨"C", "1", 3, "t", "l3", "c", 3, "", ""⟩

/-- A YouTube search item. -/
def ytItem : YouTube.VideoItem := ⟨"abc", "T", 5, "Chan"⟩

/-- A submission five days old (outside a one-day window ending at day 0). -/
def subOld : Reddit.PrawSubmission := ⟨"old", "/p1", some "u", 1, -5, "", 0, false⟩

/-- A submission from day 0 (inside the window `[0]`). -/
def subNew : Reddit.PrawSubmission := ⟨"new", "/p2", some "u", 1, 0, "", 0, false⟩

/-- A TechCrunch block with no title heading (so no link) but a fresh
timestamp. -/
def tcNoTitleBlock : TechCrunch.TCArticleHtml := ⟨none, none, none, some "2 hours ago"⟩

/-- The article `parse_article` builds from `tcNoTitleBlock` when
`today = 100`: placeholder title, no link, within a one-day window. -/
def tcNoTitleArticle : TechCrunch.Article :=
  ⟨"Title not found", none, none, "Summary not found", some 100⟩

/-- Descending-date comparisons are total, for `List.sorted_insertionSort`. -/
instance : IsTotal Reddit.RedditPost (fun a b => b.date ≤ a.date) :=
  ⟨fun a b => le_total b.date a.date⟩

/-- Descending-date comparisons are transitive. -/
instance : IsTrans Reddit.RedditPost (fun a b => b.date ≤ a.date) :=
  ⟨fun _ _ _ h1 h2 => le_trans h2 h1⟩

/-! ## Helper lemmas -/

/-- Folding `min` over a list lowers the accumulator below every element. -/
theorem foldl_min_le (ts : List Int) :
    ∀ a : Int, ts.foldl min a ≤ a ∧ ∀ x ∈ ts, ts.foldl min a ≤ x := by
  induction ts with
  | nil => intro a; simp
  | cons t ts ih =>
    intro a
    refine ⟨?_, ?_⟩
    · exact le_trans (ih (min a t)).1 (min_le_left a t)
    · intro x hx
      rcases List.mem_cons.mp hx with rfl | hx
      · exact le_trans (ih (min a x)).1 (min_le_right a x)
      · exact (ih (min a t)).2 x hx

/-- Python `min` bounds every element of its argument from below. -/
theorem pymin_le {tw : List Int} {m : Int} (h : Reddit.pymin tw = .ok m) :
    ∀ x ∈ tw, m ≤ x := by
  cases tw with
  | nil => simp [Reddit.pymin] at h
  | cons t ts =>
    simp [Reddit.pymin] at h
    subst h
    intro x hx
    rcases List.mem_cons.mp hx with rfl | hx
    · exact (foldl_min_le ts x).1
    · exact (foldl_min_le ts t).2 x hx

/-- With a non-empty window the listing walk never raises. -/
theorem api_fetch_ok (name : String) {tw : List Int} (hne : tw ≠ [])
    (listing : List Reddit.PrawSubmission) :
    ∃ posts, Reddit.api_fetch_posts name tw listing = .ok posts := by
  induction listing with
  | nil => exact ⟨[], rfl⟩
  | cons p rest ih =>
    obtain ⟨L, hL⟩ := ih
    obtain ⟨t, ts, rfl⟩ : ∃ t ts, tw = t :: ts := by
      cases tw with
      | nil => exact absurd rfl hne
      | cons t ts => exact ⟨t, ts, rfl⟩
    by_cases hin : p.created_date ∈ t :: ts
    · exact ⟨Reddit.build_record name p :: L, by simp [Reddit.api_fetch_posts, hin, hL]⟩
    · by_cases hlt : p.created_date < ts.foldl min t
      · exact ⟨[], by simp [Reddit.api_fetch_posts, hin, Reddit.pymin, hlt]⟩
      · exact ⟨L, by simp [Reddit.api_fetch_posts, hin, Reddit.pymin, hlt, hL]⟩

/-- With a non-empty window the whole subreddit loop never raises. -/
theorem fetch_all_ok (listings : String → List Reddit.PrawSubmission) {tw : List Int}
    (hne : tw ≠ []) (subs : List String) :
    ∃ all, Reddit.fetch_all listings tw subs = .ok all := by
  induction subs with
  | nil => exact ⟨[], rfl⟩
  | cons s rest ih =>
    obtain ⟨tail, htail⟩ := ih
    obtain ⟨raw, hraw⟩ := api_fetch_ok s hne (listings s)
    exact ⟨raw.map Reddit.process_post ++ tail, by simp [Reddit.fetch_all, hraw, htail]⟩

/-- The kept articles form a sublist of the input (order preserved). -/
theorem rd_go_sublist : ∀ (xs : List Medium.MediumArticle) (seen : List String),
    (Medium.remove_duplicates_go xs seen).Sublist xs := by
  intro xs
  induction xs with
  | nil => intro seen; simp [Medium.remove_duplicates_go]
  | cons a rest ih =>
    intro seen
    rw [Medium.remove_duplicates_go]
    split
    · exact List.Sublist.cons₂ a (ih _)
    · exact List.Sublist.cons a (ih _)

/-- Every kept article has a non-empty link not in the starting seen set. -/
theorem rd_go_mem_props : ∀ (xs : List Medium.MediumArticle) (seen : List String),
    ∀ a ∈ Medium.remove_duplicates_go xs seen, a.link ≠ "" ∧ a.link ∉ seen := by
  intro xs
  induction xs with
  | nil => intro seen a ha; simp [Medium.remove_duplicates_go] at ha
  | cons x rest ih =>
    intro seen a ha
    rw [Medium.remove_duplicates_go] at ha
    split at ha
    · rcases List.mem_cons.mp ha with rfl | ha
      · assumption
      · have := ih (seen ++ [x.link]) a ha
        refine ⟨this.1, ?_⟩
        intro hmem
        exact this.2 (by simp [hmem])
    · exact ih seen a ha

/-- The kept articles carry pairwise distinct links. -/
theorem rd_go_nodup : ∀ (xs : List Medium.MediumArticle) (seen : List String),
    ((Medium.remove_duplicates_go xs seen).map (fun a => a.link)).Nodup := by
  intro xs
  induction xs with
  | nil => intro seen; simp [Medium.remove_duplicates_go]
  | cons x rest ih =>
    intro seen
    rw [Medium.remove_duplicates_go]
    split
    · simp only [List.map_cons, List.nodup_cons]
      refine ⟨?_, ih _⟩
      intro hmem
      rcases List.mem_map.mp hmem with ⟨b, hb, hlink⟩
      have := rd_go_mem_props rest (seen ++ [x.link]) b hb
      exact this.2 (by simp [hlink])
    · exact ih _

/-- On a list whose links are non-empty, unseen and pairwise distinct, the
dedupe loop is the identity. -/
theorem rd_go_eq_self : ∀ (xs : List Medium.MediumArticle) (seen : List String),
    (∀ a ∈ xs, a.link ≠ "" ∧ a.link ∉ seen) → ((xs.map (fun a => a.link)).Nodup) →
    Medium.remove_duplicates_go xs seen = xs := by
  intro xs
  induction xs with
  | nil => intro seen _ _; rfl
  | cons x rest ih =>
    intro seen hprops hnodup
    rw [Medium.remove_duplicates_go]
    rw [if_pos (hprops x (List.mem_cons_self x rest))]
    congr 1
    simp only [List.map_cons, List.nodup_cons] at hnodup
    apply ih
    · intro a ha
      refine ⟨(hprops a (List.mem_cons_of_mem x ha)).1, ?_⟩
      intro hmem
      rcases List.mem_append.mp hmem with h | h
      · exact (hprops a (List.mem_cons_of_mem x ha)).2 h
      · simp at h
        exact hnodup.1 (h ▸ List.mem_map_of_mem (fun a => a.link) ha)
    · exact hnodup.2

/-- A link present in the input (non-empty, unseen) survives the dedupe
loop. -/
theorem rd_first_occurrence : ∀ (xs : List Medium.MediumArticle) (seen : List String)
    (a : Medium.MediumArticle), a ∈ xs → a.link ≠ "" → a.link ∉ seen →
    ∃ b ∈ Medium.remove_duplicates_go xs seen, b.link = a.link := by
  intro xs
  induction xs with
  | nil => intro seen a ha; simp at ha
  | cons x rest ih =>
    intro seen a ha hlink hseen
    rw [Medium.remove_duplicates_go]
    rcases List.mem_cons.mp ha with rfl | ha
    · rw [if_pos ⟨hlink, hseen⟩]
      exact ⟨a, List.mem_cons_self _ _, rfl⟩
    · split
      · by_cases heq : a.link = x.link
        · exact ⟨x, List.mem_cons_self _ _, heq.symm⟩
        · obtain ⟨b, hb, hbl⟩ := ih (seen ++ [x.link]) a ha hlink
            (by
              intro hmem
              rcases List.mem_append.mp hmem with hmem | hmem
              · exact hseen hmem
              · simp at hmem
                exact heq hmem)
          exact ⟨b, List.mem_cons_of_mem x hb, hbl⟩
      · exact ih seen a ha hlink hseen

/-- A Medium article that `parse_article` returns passed the truthiness
guard, so its title and link are non-empty. -/
theorem parse_article_fields {today : Int} {a : Medium.MediumArticleHtml} {topic : String}
    {art : Medium.MediumArticle} (h : Medium.parse_article today a topic = some art) :
    art.title ≠ "" ∧ art.link ≠ "" := by
  unfold Medium.parse_article at h
  split at h
  · split at h
    · rename_i hcond
      cases h
      simp only [Bool.and_eq_true, decide_eq_true_eq] at hcond
      exact ⟨hcond.1.1, hcond.1.2⟩
    · cases h
  · cases h

/-- Every article the page loop emits came through `parse_article`, so its
title and link are non-empty. -/
theorem process_articles_fields {detect : String → Except String String}
    {today days_back : Int} {topic : String} :
    ∀ (page : List Medium.MediumArticleHtml) (seen : List String)
      (new : List Medium.MediumArticle) (seen2 : List String),
      Medium.process_articles detect today days_back topic page seen = .ok (new, seen2) →
      ∀ a ∈ new, a.title ≠ "" ∧ a.link ≠ "" := by
  intro page
  induction page with
  | nil =>
    intro seen new seen2 h a ha
    rw [Medium.process_articles] at h
    cases h
    exact absurd ha (by simp)
  | cons x rest ih =>
    intro seen new seen2 h a ha
    cases hp : Medium.parse_article today x topic with
    | none =>
      simp only [Medium.process_articles, hp] at h
      exact ih seen new seen2 h a ha
    | some art =>
      cases hv : Medium.is_valid_article detect today days_back art with
      | error e =>
        simp only [Medium.process_articles, hp, hv] at h
        cases h
      | ok valid =>
        simp only [Medium.process_articles, hp, hv] at h
        split at h
        · cases hrec : Medium.process_articles detect today days_back topic rest
              (seen ++ [art.link]) with
          | error e => rw [hrec] at h; cases h
          | ok pr =>
            rw [hrec] at h
            cases h
            rcases List.mem_cons.mp ha with rfl | ha
            · exact parse_article_fields hp
            · exact ih _ pr.1 pr.2 (by rw [hrec]) a ha
        · exact ih seen new seen2 h a ha

/-- The scroll loop only appends articles that came through the page loop. -/
theorem scroll_loop_fields {detect : String → Except String String}
    {today days_back : Int} {topic : String} :
    ∀ (pages : List (List Medium.MediumArticleHtml)) (consecutive : Nat)
      (seen : List String) (acc l : List Medium.MediumArticle),
      (∀ a ∈ acc, a.title ≠ "" ∧ a.link ≠ "") →
      Medium.scroll_loop detect today days_back topic pages consecutive seen acc = .ok l →
      ∀ a ∈ l, a.title ≠ "" ∧ a.link ≠ "" := by
  intro pages
  induction pages with
  | nil =>
    intro consecutive seen acc l hacc h a ha
    rw [Medium.scroll_loop] at h
    split at h
    · cases h; exact hacc a ha
    · cases h; exact hacc a ha
  | cons page rest ih =>
    intro consecutive seen acc l hacc h a ha
    rw [Medium.scroll_loop] at h
    split at h
    · cases h; exact hacc a ha
    · cases hpp : Medium.process_articles detect today days_back topic page seen with
      | error e => rw [hpp] at h; cases h
      | ok pr =>
        obtain ⟨new, seen2⟩ := pr
        simp only [hpp] at h
        split at h
        · exact ih _ _ _ _ hacc h a ha
        · refine ih _ _ _ _ ?_ h a ha
          intro b hb
          rcases List.mem_append.mp hb with hb | hb
          · exact hacc b hb
          · exact process_articles_fields page seen new seen2 hpp b hb

/-- The topic loop preserves the title/link invariant. -/
theorem fetch_topics_fields {detect : String → Except String String}
    {today days_back : Int} :
    ∀ (topics : List (String × List (List Medium.MediumArticleHtml)))
      (acc l : List Medium.MediumArticle),
      (∀ a ∈ acc, a.title ≠ "" ∧ a.link ≠ "") →
      Medium.fetch_topics detect today days_back topics acc = .ok l →
      ∀ a ∈ l, a.title ≠ "" ∧ a.link ≠ "" := by
  intro topics
  induction topics with
  | nil =>
    intro acc l hacc h a ha
    rw [Medium.fetch_topics] at h
    cases h
    exact hacc a ha
  | cons tp rest ih =>
    intro acc l hacc h a ha
    rw [Medium.fetch_topics] at h
    cases hsl : Medium.scroll_loop detect today days_back tp.1 tp.2 0 [] acc with
    | error e => rw [hsl] at h; cases h
    | ok acc2 =>
      rw [hsl] at h
      exact ih acc2 l (scroll_loop_fields tp.2 0 [] acc acc2 hacc hsl) h a ha

/-- Value of a decimal digit character. -/
theorem digitChar_val : ∀ d : Nat, d < 10 → (Nat.digitChar d).toNat - 48 = d := by decide

/-- Appending a digit multiplies the decoded value by ten. -/
theorem digitsToNat_append (l : List Char) (c : Char) :
    digitsToNat (l ++ [c]) = 10 * digitsToNat l + (c.toNat - 48) := by
  simp [digitsToNat, List.foldl_append]

/-- Decoding the decimal rendering recovers the number (with enough fuel). -/
theorem decode_decChars : ∀ (fuel n : Nat), n < 10 ^ fuel →
    digitsToNat (Main.decChars fuel n) = n := by
  intro fuel
  induction fuel with
  | zero =>
    intro n h
    simp at h
    simp [h, Main.decChars, digitsToNat]
  | succ fuel ih =>
    intro n h
    rw [Main.decChars]
    split
    · rename_i hlt
      simp [digitsToNat, List.foldl]
      exact digitChar_val n hlt
    · rename_i hge
      rw [digitsToNat_append]
      rw [ih (n / 10) (by rw [pow_succ] at h; omega)]
      rw [digitChar_val (n % 10) (Nat.mod_lt n (by norm_num))]
      omega

/-- Decoding `natToDec` recovers the number. -/
theorem natToDec_decode (n : Nat) : digitsToNat (Main.natToDec n).toList = n := by
  have h2 : n < 2 ^ n := Nat.lt_two_pow n
  have h10 : (2 : Nat) ^ n ≤ 10 ^ n := Nat.pow_le_pow_left (by norm_num) n
  have hlt : n < 10 ^ (n + 1) := by
    have : (10 : Nat) ^ n ≤ 10 ^ (n + 1) := Nat.pow_le_pow_right (by norm_num) (by omega)
    omega
  exact decode_decChars (n + 1) n hlt

/-- Decoding the zero-padded rendering also recovers the number (a leading
zero does not change the decoded value). -/
theorem format02_decode (n : Nat) : digitsToNat (Main.format02 n).toList = n := by
  unfold Main.format02
  split
  · have hdata : ("0" ++ Main.natToDec n).toList = '0' :: (Main.natToDec n).toList := by
      simp [String.toList, String.data_append]
    rw [hdata]
    have h0 : digitsToNat ('0' :: (Main.natToDec n).toList) =
        digitsToNat ((Main.natToDec n).toList) := by
      simp [digitsToNat, List.foldl]
    rw [h0, natToDec_decode]
  · exact natToDec_decode n

/-- `f"{n:02d}"` is injective. -/
theorem format02_inj {m n : Nat} (h : Main.format02 m = Main.format02 n) : m = n := by
  rw [← format02_decode m, ← format02_decode n, h]

/-- Distinct probe indices give distinct candidate paths. -/
theorem candidate_inj (dst today : String) :
    ∀ i j, Main.candidate dst today i = Main.candidate dst today j → i = j := by
  have hu : ("_" : String).length = 1 := rfl
  intro i j h
  match i, j with
  | 0, 0 => rfl
  | 0, j + 1 =>
    exfalso
    have hlen := congrArg String.length h
    simp [Main.candidate, String.length_append, hu] at hlen
    omega
  | i + 1, 0 =>
    exfalso
    have hlen := congrArg String.length h
    simp [Main.candidate, String.length_append, hu] at hlen
    omega
  | i + 1, j + 1 =>
    have hdata := congrArg String.data h
    simp only [Main.candidate, String.data_append, List.append_assoc] at hdata
    have h1 := List.append_cancel_left hdata
    have h2 := List.append_cancel_left h1
    have h3 := List.append_cancel_left h2
    have h4 := List.append_cancel_left h3
    have h5 := List.append_cancel_right h4
    have heq : Main.format02 (i + 1) = Main.format02 (j + 1) := by
      cases hm : Main.format02 (i + 1) with
      | mk d1 =>
        cases hn : Main.format02 (j + 1) with
        | mk d2 =>
          rw [hm, hn] at h5
          simp at h5
          simp [h5]
    exact format02_inj heq

/-- Among the first `files.length + 1` candidates one is not an existing
file (pigeonhole over distinct candidate names). -/
theorem exists_free_candidate (files : List String) (dst today : String) :
    ∃ j, j ≤ files.length ∧ Main.candidate dst today j ∉ files := by
  by_contra hcon
  push_neg at hcon
  have hinj : Function.Injective
      (fun j : Fin (files.length + 1) => Main.candidate dst today j.val) := by
    intro a b hab
    exact Fin.ext (candidate_inj dst today a.val b.val hab)
  have hcard : (Finset.univ.image
      (fun j : Fin (files.length + 1) => Main.candidate dst today j.val)).card =
      files.length + 1 := by
    rw [Finset.card_image_of_injective _ hinj, Finset.card_univ, Fintype.card_fin]
  have hsub : (Finset.univ.image
      (fun j : Fin (files.length + 1) => Main.candidate dst today j.val)) ⊆
      files.toFinset := by
    intro s hs
    rcases Finset.mem_image.mp hs with ⟨j, _, rfl⟩
    exact List.mem_toFinset.mpr (hcon j.val (by omega))
  have h1 := Finset.card_le_card hsub
  have h2 := files.toFinset_card_le
  omega

/-- The probe loop returns the first free candidate at or after `ix`,
provided one exists within `fuel` probes. -/
theorem filename_from_spec (files : List String) (dst today : String) :
    ∀ (fuel ix : Nat),
      (∃ j, ix ≤ j ∧ j < ix + fuel ∧ Main.candidate dst today j ∉ files) →
      ∃ k, ix ≤ k ∧ Main.filename_from files dst today fuel ix = Main.candidate dst today k ∧
        Main.candidate dst today k ∉ files ∧
        ∀ j, ix ≤ j → j < k → Main.candidate dst today j ∈ files := by
  intro fuel
  induction fuel with
  | zero =>
    intro ix hex
    obtain ⟨j, h1, h2, _⟩ := hex
    omega
  | succ fuel ih =>
    intro ix hex
    rw [Main.filename_from]
    by_cases hmem : Main.candidate dst today ix ∈ files
    · rw [if_pos hmem]
      obtain ⟨j, h1, h2, h3⟩ := hex
      have hj : ix + 1 ≤ j := by
        rcases Nat.eq_or_lt_of_le h1 with rfl | h
        · exact absurd hmem h3
        · omega
      obtain ⟨k, hk1, hk2, hk3, hk4⟩ := ih (ix + 1) ⟨j, hj, by omega, h3⟩
      refine ⟨k, by omega, hk2, hk3, ?_⟩
      intro j' hj1 hj2
      rcases Nat.eq_or_lt_of_le hj1 with rfl | h
      · exact hmem
      · exact hk4 j' (by omega) hj2
    · rw [if_neg hmem]
      exact ⟨ix, le_refl ix, rfl, hmem, fun j' h1 h2 => absurd h2 (by omega)⟩

/-! ## Claim theorems -/

/-- C5 (amended): the window filter of `RedditAPIClient.fetch_posts` is
correct only for reverse-chronological listings: if the listing's dates are
non-increasing and the window is non-empty, the walk returns exactly the
posts whose date lies in the time window; on a listing that is not
time-sorted the early `break` discards every post after the first one
strictly older than the window's earliest day (see the counterexample), so
the short-circuit is load-bearing, not an optimization. -/
theorem c5_window_filter (name : String) (tw : List Int)
    (listing : List Reddit.PrawSubmission) (hne : tw ≠ [])
    (hsorted : List.Pairwise (fun a b => b.created_date ≤ a.created_date) listing) :
    Reddit.api_fetch_posts name tw listing =
      .ok ((listing.filter (fun p => tw.contains p.created_date)).map
        (Reddit.build_record name)) := by
  induction listing with
  | nil => rfl
  | cons p rest ih =>
    rcases List.pairwise_cons.mp hsorted with ⟨hp, hrest⟩
    by_cases hin : p.created_date ∈ tw
    · simp [Reddit.api_fetch_posts, hin, ih hrest]
    · obtain ⟨t, ts, rfl⟩ : ∃ t ts, tw = t :: ts := by
        cases tw with
        | nil => exact absurd rfl hne
        | cons t ts => exact ⟨t, ts, rfl⟩
      have hmin := foldl_min_le ts t
      by_cases hlt : p.created_date < ts.foldl min t
      · simp [Reddit.api_fetch_posts, hin, Reddit.pymin, hlt]
        have hpt : ¬p.created_date = t ∧ p.created_date ∉ ts := by simpa using hin
        refine ⟨hpt, ?_⟩
        intro a ha
        have h1 : a.created_date ≤ p.created_date := hp a ha
        constructor
        · intro h
          have := hmin.1
          omega
        · intro hmem
          have := hmin.2 _ hmem
          omega
      · have hpc : (decide (p.created_date = t) || decide (p.created_date ∈ ts)) = false := by
          simpa using hin
        simp [Reddit.api_fetch_posts, hin, Reddit.pymin, hlt, ih hrest, List.filter_cons, hpc]

/-- Witness for C5 on a sorted two-post listing and the window `[0]`. -/
theorem c5_window_filter_witness :
    (([(0 : Int)] : List Int) ≠ [] ∧
      List.Pairwise (fun a b => b.created_date ≤ a.created_date) [subNew, subOld]) ∧
    Reddit.api_fetch_posts "r" [(0 : Int)] [subNew, subOld] =
      .ok (([subNew, subOld].filter (fun p => [(0 : Int)].contains p.created_date)).map
        (Reddit.build_record "r")) :=
  ⟨⟨by decide, by decide⟩,
    c5_window_filter "r" [0] [subNew, subOld] (by decide) (by decide)⟩

/-- C10 (confirmed): for every subreddit list (in any order) and every
listing oracle, with `days_back ≥ 1` the fetch succeeds and returns the
combined posts of all subreddits sorted by date in descending order (a
permutation of the concatenated per-subreddit results). -/
theorem c10_fetch_posts_sorted (subreddits : List String)
    (listings : String → List Reddit.PrawSubmission) (today : Int) (days_back : Nat)
    (h : 1 ≤ days_back) :
    ∃ all, Reddit.fetch_all listings (Reddit.generate_time_window today days_back) subreddits
        = .ok all ∧
      Reddit.fetch_posts subreddits listings today days_back =
        .ok (List.insertionSort (fun a b => b.date ≤ a.date) all) ∧
      List.Sorted (fun a b => b.date ≤ a.date)
        (List.insertionSort (fun a b => b.date ≤ a.date) all) ∧
      (List.insertionSort (fun a b => b.date ≤ a.date) all).Perm all := by
  have hne : Reddit.generate_time_window today days_back ≠ [] := by
    simp [Reddit.generate_time_window]
    exact ⟨0, h⟩
  obtain ⟨all, hall⟩ := fetch_all_ok listings hne subreddits
  refine ⟨all, hall, ?_, ?_, ?_⟩
  · simp [Reddit.fetch_posts, hall]
  · exact List.sorted_insertionSort _ _
  · exact List.perm_insertionSort _ _

/-- Witness for C10 at one subreddit, a fixed listing, `today = 0` and
`days_back = 1`. -/
theorem c10_fetch_posts_sorted_witness :
    1 ≤ 1 ∧
    ∃ all, Reddit.fetch_all (fun _ => [subNew, subOld]) (Reddit.generate_time_window 0 1) ["r"]
        = .ok all ∧
      Reddit.fetch_posts ["r"] (fun _ => [subNew, subOld]) 0 1 =
        .ok (List.insertionSort (fun a b => b.date ≤ a.date) all) ∧
      List.Sorted (fun a b => b.date ≤ a.date)
        (List.insertionSort (fun a b => b.date ≤ a.date) all) ∧
      (List.insertionSort (fun a b => b.date ≤ a.date) all).Perm all :=
  ⟨le_refl 1, c10_fetch_posts_sorted ["r"] (fun _ => [subNew, subOld]) 0 1 (le_refl 1)⟩



/-- C1 (amended): the boundary-inclusive window test is not applied
uniformly.  For every `today` and `days_back = N ≥ 1`: the TechCrunch filter
keeps an item dated exactly `today - N` and drops `today - N - 1`, and the
Medium validity test accepts `today - N` and rejects `today - N - 1`; but the
Reddit window is the list of days `today - x` for `x < N`, so its earliest
member is `today - (N - 1)` and an item dated exactly `N` days before today
(the claimed cutoff day) is outside the Reddit window. -/
theorem c1_window_boundary (today : Int) (N : Nat) (h : 1 ≤ N) :
    TechCrunch.tc_filter_articles today N [tcDatedArticle (today - N)]
        = [tcDatedArticle (today - N)] ∧
    TechCrunch.tc_filter_articles today N [tcDatedArticle (today - N - 1)] = [] ∧
    Medium.is_valid_article enDetect today N (mDatedArticle (today - N)) = .ok true ∧
    Medium.is_valid_article enDetect today N (mDatedArticle (today - N - 1)) = .ok false ∧
    (today - (N - 1 : Nat)) ∈ Reddit.generate_time_window today N ∧
    (today - N) ∉ Reddit.generate_time_window today N := by
  refine ⟨?_, ?_, ?_, ?_, ?_, ?_⟩
  · simp [TechCrunch.tc_filter_articles, tcDatedArticle, List.filter]
  · simp [TechCrunch.tc_filter_articles, tcDatedArticle, List.filter]
  · simp [Medium.is_valid_article, mDatedArticle, enDetect]
  · simp [Medium.is_valid_article, mDatedArticle, enDetect]
    rfl
  · simp [Reddit.generate_time_window, List.mem_map, List.mem_range]
    omega
  · simp [Reddit.generate_time_window, List.mem_map, List.mem_range]

/-- Witness for C1 at `today = 0`, `days_back = 1`. -/
theorem c1_window_boundary_witness :
    1 ≤ 1 ∧
    (TechCrunch.tc_filter_articles 0 1 [tcDatedArticle (0 - 1)]
        = [tcDatedArticle (0 - 1)] ∧
     TechCrunch.tc_filter_articles 0 1 [tcDatedArticle (0 - 1 - 1)] = [] ∧
     Medium.is_valid_article enDetect 0 1 (mDatedArticle (0 - 1)) = .ok true ∧
     Medium.is_valid_article enDetect 0 1 (mDatedArticle (0 - 1 - 1)) = .ok false ∧
     ((0 : Int) - ((1 : Nat) - 1 : Nat)) ∈ Reddit.generate_time_window 0 1 ∧
     ((0 : Int) - (1 : Nat)) ∉ Reddit.generate_time_window 0 1) :=
  ⟨le_refl 1, c1_window_boundary 0 1 (le_refl 1)⟩

/-- C1 fails as stated: with `days_back = 1` and `today = 0` the cutoff day
`today - 1` is not in the Reddit time window, although the claim requires the
cutoff day to be inside the window for the Reddit filter too. -/
theorem c1_window_boundary_counterexample :
    ((0 : Int) - 1) ∉ Reddit.generate_time_window 0 1 := by
  decide

/-- C3 (code bug): on four empty source lists `generate_markdown` does not
produce a four-section document; evaluating the header f-string raises
`NameError` because `today` is bound only inside `filename_generator`. -/
theorem c3_generate_markdown_name_error :
    Main.generate_markdown [] [] [] [] =
      .error "NameError: name 'today' is not defined" := rfl

/-- C6 (amended): a transcript-lookup failure never drops the item — the
`Video` is returned with an empty transcript; but a description-lookup
failure is not caught, so its exception propagates and the item is dropped. -/
theorem c6_secondary_lookup (item : YouTube.VideoItem) (query e desc : String) :
    YouTube.process_video item query (.error e) (.ok desc) =
      .ok ⟨item.title, item.videoId, item.publishedAt, query,
        "https://www.youtube.com/watch?v=" ++ item.videoId, item.channelTitle,
        item.publishedAt, desc, ""⟩ ∧
    (∀ tl, YouTube.process_video item query tl (.error e) = .error e) :=
  ⟨rfl, fun _ => rfl⟩

/-- Witness for C6 on a concrete item with a failing transcript lookup. -/
theorem c6_secondary_lookup_witness :
    YouTube.process_video ytItem "q" (.error "err") (.ok "desc") =
      .ok ⟨"T", "abc", 5, "q", "https://www.youtube.com/watch?v=abc", "Chan", 5,
        "desc", ""⟩ :=
  (c6_secondary_lookup ytItem "q" "err" "desc").1

/-- C6 fails as stated: a failing description lookup makes `process_video`
raise instead of returning the `Video` with an empty optional field. -/
theorem c6_secondary_lookup_counterexample :
    YouTube.process_video ytItem "q" (.ok []) (.error "VideoUnavailable") =
      .error "VideoUnavailable" := rfl

/-- C7 (amended): the Medium parser maps the exact string `"just now"` and
any `Nh ago` age to today, `Nd ago` to `today - N`, extracts `\d{1,2}[hd]
ago` ages from surrounding noise (but matches `"just now"` only as the whole
string), and yields no date otherwise; the TechCrunch parser instead maps
strings containing `"hour"` to today and strings containing `"days ago"` to
`today` minus their first integer, and yields no date for everything else —
including `"just now"`, `"Nd ago"` and `"Nh ago"`. -/
theorem c7_relative_time (today : Int) :
    Medium.extract_post_date today (mediumDivs ["just now"]) = some (today - 0) ∧
    Medium.extract_post_date today (mediumDivs ["5h ago"]) = some (today - 0) ∧
    Medium.extract_post_date today (mediumDivs ["2d ago"]) = some (today - 2) ∧
    Medium.extract_post_date today (mediumDivs ["Posted 3d ago - 5 min read"])
        = some (today - 3) ∧
    Medium.extract_post_date today (mediumDivs ["just now - 5 min read"]) = none ∧
    Medium.extract_post_date today (mediumDivs ["hello world"]) = none ∧
    TechCrunch.tc_convert_to_date today (TechCrunch.tc_convert_to_days_ago "2 hours ago")
        = some (today - 0) ∧
    TechCrunch.tc_convert_to_date today (TechCrunch.tc_convert_to_days_ago "2 days ago")
        = some (today - 2) ∧
    TechCrunch.tc_convert_to_days_ago "just now" = none ∧
    TechCrunch.tc_convert_to_days_ago "2d ago" = none ∧
    TechCrunch.tc_convert_to_days_ago "5h ago" = none :=
  ⟨rfl, rfl, rfl, rfl, rfl, rfl, rfl, rfl, rfl, rfl, rfl⟩

/-- Witness for C7 at `today = 0`. -/
theorem c7_relative_time_witness :
    Medium.extract_post_date 0 (mediumDivs ["just now"]) = some (0 - 0) ∧
    Medium.extract_post_date 0 (mediumDivs ["5h ago"]) = some (0 - 0) ∧
    Medium.extract_post_date 0 (mediumDivs ["2d ago"]) = some (0 - 2) ∧
    Medium.extract_post_date 0 (mediumDivs ["Posted 3d ago - 5 min read"])
        = some (0 - 3) ∧
    Medium.extract_post_date 0 (mediumDivs ["just now - 5 min read"]) = none ∧
    Medium.extract_post_date 0 (mediumDivs ["hello world"]) = none ∧
    TechCrunch.tc_convert_to_date 0 (TechCrunch.tc_convert_to_days_ago "2 hours ago")
        = some (0 - 0) ∧
    TechCrunch.tc_convert_to_date 0 (TechCrunch.tc_convert_to_days_ago "2 days ago")
        = some (0 - 2) ∧
    TechCrunch.tc_convert_to_days_ago "just now" = none ∧
    TechCrunch.tc_convert_to_days_ago "2d ago" = none ∧
    TechCrunch.tc_convert_to_days_ago "5h ago" = none :=
  c7_relative_time 0

/-- C7 fails as stated: the TechCrunch relative-time parser, one of the two
parsers the claim covers, yields no date for `"just now"`, `"2d ago"` and
`"5h ago"`, although the claim requires today, today minus two days and
today respectively. -/
theorem c7_relative_time_counterexample :
    TechCrunch.tc_convert_to_days_ago "just now" = none ∧
    TechCrunch.tc_convert_to_days_ago "2d ago" = none ∧
    TechCrunch.tc_convert_to_days_ago "5h ago" = none := by
  refine ⟨?_, ?_, ?_⟩ <;> decide

/-- C8 (amended): the web-driver session is released exactly when the run
completes without an exception — `quit()` runs on the normal return path
only; an exception raised inside the fetch loop (for example by the language
detector) propagates out of `fetch_articles` with the session still open. -/
theorem c8_driver_release (detect : String → Except String String) (today days_back : Int)
    (topics : List (String × List (List Medium.MediumArticleHtml))) :
    (Medium.fetch_articles detect today days_back topics).2 = true ↔
      ∃ arts, (Medium.fetch_articles detect today days_back topics).1 = .ok arts := by
  unfold Medium.fetch_articles
  cases Medium.fetch_topics detect today days_back topics [] <;> simp

/-- Witness for C8 on a concrete successful run. -/
theorem c8_driver_release_witness :
    (Medium.fetch_articles enDetect 10 3 [("llm", [[mhHello]])]).2 = true ↔
      ∃ arts, (Medium.fetch_articles enDetect 10 3 [("llm", [[mhHello]])]).1 = .ok arts :=
  c8_driver_release enDetect 10 3 [("llm", [[mhHello]])]

/-- C8 fails as stated: a language-detector exception in the middle of a run
escapes `fetch_articles` and the session is not released (the flag is
`false`). -/
theorem c8_driver_release_counterexample :
    Medium.fetch_articles boomDetect 10 3 [("llm", [[mhHello]])] =
      (.error "LangDetectException: No features in text.", false) := rfl

/-- C5 fails as stated: on a listing that is not reverse-chronological, the
early `break` makes `fetch_posts` return no posts even though the second
post's date is inside the window. -/
theorem c5_early_stop_counterexample :
    Reddit.api_fetch_posts "r" [(0 : Int)] [subOld, subNew] = .ok [] ∧
      subNew.created_date ∈ [(0 : Int)] :=
  ⟨rfl, by decide⟩

/-- C2 fails as stated: a TechCrunch block with no title heading parses to an
article with `link = None` (and a placeholder title), and the date filter
does not remove it, so `get_articles` outputs an item with a missing link. -/
theorem c2_required_fields_counterexample :
    TechCrunch.get_articles 100 1 [tcNoTitleBlock] = [tcNoTitleArticle] ∧
      tcNoTitleArticle.link = none := by
  refine ⟨?_, ?_⟩ <;> decide

/-- C4 fails as stated: `remove_duplicates` on videos `A(id=1)`, `B(id=2)`,
`C(id=1)` keeps the last occurrence `C` (and re-sorts by publication
instant), not the first occurrence `A`, so the result is not `[A, B]`. -/
theorem c4_dedupe_counterexample :
    YouTube.remove_duplicates [vidA, vidB, vidC] = [vidC, vidB] ∧
      YouTube.remove_duplicates [vidA, vidB, vidC] ≠ [vidA, vidB] := by
  refine ⟨?_, ?_⟩ <;> decide

/-- C4 (amended): Medium's `remove_duplicate_articles` is a stable,
order-preserving, first-occurrence dedupe keyed on the exact link string
among items with a truthy link (an item with an empty link is dropped
altogether), and it is idempotent; on `[A(link=1), B(link=2), C(link=1)]` it
returns `[A, B]`.  YouTube's `remove_duplicates`, by contrast, keys on
`video_id`, keeps the *last* occurrence per key, and returns the survivors
sorted by `published_at` descending rather than in input order. -/
theorem c4_dedupe (xs : List Medium.MediumArticle) :
    Medium.remove_duplicate_articles (Medium.remove_duplicate_articles xs) =
      Medium.remove_duplicate_articles xs ∧
    (Medium.remove_duplicate_articles xs).Sublist xs ∧
    (∀ a ∈ xs, a.link ≠ "" → ∃ b ∈ Medium.remove_duplicate_articles xs, b.link = a.link) ∧
    Medium.remove_duplicate_articles [medA, medB, medC] = [medA, medB] ∧
    YouTube.remove_duplicates [vidA, vidB, vidC] = [vidC, vidB] := by
  refine ⟨?_, ?_, ?_, by decide, by decide⟩
  · apply rd_go_eq_self
    · intro a ha
      exact ⟨(rd_go_mem_props xs [] a ha).1, by simp⟩
    · exact rd_go_nodup xs []
  · exact rd_go_sublist xs []
  · intro a ha hlink
    exact rd_first_occurrence xs [] a ha hlink (by simp)

/-- Witness for C4 on the `[A, B, C]` example (idempotence plus survival of
the duplicated link). -/
theorem c4_dedupe_witness :
    Medium.remove_duplicate_articles (Medium.remove_duplicate_articles [medA, medB, medC]) =
      Medium.remove_duplicate_articles [medA, medB, medC] ∧
    ∃ b ∈ Medium.remove_duplicate_articles [medA, medB, medC], b.link = medC.link :=
  ⟨(c4_dedupe [medA, medB, medC]).1,
    (c4_dedupe [medA, medB, medC]).2.2.1 medC (by decide) (by decide)⟩

/-- C2 (amended): the Medium adapter never outputs an item with an empty
title or link — `parse_article` drops any block whose title, link or snippet
is missing or empty, and every later stage only filters; the TechCrunch
adapter however does not enforce this (see the counterexample: a block with
no title heading yields an output item with `link = None`). -/
theorem c2_required_fields (detect : String → Except String String) (today days_back : Int)
    (topics : List (String × List (List Medium.MediumArticleHtml)))
    (arts : List Medium.MediumArticle)
    (h : (Medium.fetch_articles detect today days_back topics).1 = .ok arts) :
    ∀ a ∈ arts, a.title ≠ "" ∧ a.link ≠ "" := by
  intro a ha
  unfold Medium.fetch_articles at h
  cases hft : Medium.fetch_topics detect today days_back topics [] with
  | error e => rw [hft] at h; cases h
  | ok all =>
    rw [hft] at h
    cases h
    have hmem : a ∈ all := (rd_go_sublist all []).mem ha
    exact fetch_topics_fields topics [] all (by simp) hft a hmem

/-- Witness for C2 on a one-topic, one-page, one-article run. -/
theorem c2_required_fields_witness :
    (Medium.fetch_articles enDetect 10 3 [("llm", [[mhHello]])]).1 = .ok [mExpected] ∧
      (mExpected.title ≠ "" ∧ mExpected.link ≠ "") :=
  ⟨by rfl,
    c2_required_fields enDetect 10 3 [("llm", [[mhHello]])] [mExpected] (by rfl)
      mExpected (by decide)⟩

/-- C9 (confirmed): the report path never collides with an existing file.
The base name carries the current date; on collision the probes continue
with `_01`, `_02`, … (two-digit zero-padded, starting at `_01`, as the two
concrete conjuncts show), and the returned path is the first candidate that
does not exist, so it is never an existing file. -/
theorem c9_filename_generator (files : List String) (dst_dir today : String) :
    Main.filename_generator ["news/AI_News_Summary_2024-07-21.md"] "news" "2024-07-21"
        = "news/AI_News_Summary_2024-07-21_01.md" ∧
    Main.filename_generator ["news/AI_News_Summary_2024-07-21.md",
        "news/AI_News_Summary_2024-07-21_01.md"] "news" "2024-07-21"
        = "news/AI_News_Summary_2024-07-21_02.md" ∧
    ∃ k, Main.filename_generator files dst_dir today = Main.candidate dst_dir today k ∧
      Main.candidate dst_dir today k ∉ files ∧
      ∀ j < k, Main.candidate dst_dir today j ∈ files := by
  refine ⟨by decide, by decide, ?_⟩
  obtain ⟨j, hj1, hj2⟩ := exists_free_candidate files dst_dir today
  obtain ⟨k, _, h1, h2, h3⟩ := filename_from_spec files dst_dir today (files.length + 1) 0
    ⟨j, by omega, by omega, hj2⟩
  exact ⟨k, h1, h2, fun j' hj' => h3 j' (by omega) hj'⟩

/-- Witness for C9 on an empty directory. -/
theorem c9_filename_generator_witness :
    Main.filename_generator ["news/AI_News_Summary_2024-07-21.md"] "news" "2024-07-21"
        = "news/AI_News_Summary_2024-07-21_01.md" ∧
    Main.filename_generator ["news/AI_News_Summary_2024-07-21.md",
        "news/AI_News_Summary_2024-07-21_01.md"] "news" "2024-07-21"
        = "news/AI_News_Summary_2024-07-21_02.md" ∧
    ∃ k, Main.filename_generator [] "news" "2024-07-21"
        = Main.candidate "news" "2024-07-21" k ∧
      Main.candidate "news" "2024-07-21" k ∉ ([] : List String) ∧
      ∀ j < k, Main.candidate "news" "2024-07-21" j ∈ ([] : List String) :=
  c9_filename_generator [] "news" "2024-07-21"

end AINews
